import Mathlib

/-!
Shallow embedding of `relays/client-substrate/src/error.rs` (Parity Bridges
Common): the Substrate-client error taxonomy `Error`, its cause-chain
navigation `nested`, its context constructors, its adapter conversions from
external failure sources, its `Display`/`Debug` rendering, and the
connection-failure classifier `is_connection_error`.

Rust's `Box<Error>` indirection is erased (a box only changes memory layout,
not value content), and payload types owned by external crates (`std::io`,
`jsonrpsee`, `codec`, `sp_core`, `sc_rpc_api`, `tokio`, `async_std`) are
modelled by the data the repository's code actually consumes from them:
their variant shape and their rendered message strings.
-/

namespace ClientSubstrate

/-- Modelled from `sc_rpc_api::system::Health`: node health payload carried
opaquely by the `ClientNotSynced` leaf. -/
structure Health where
  peers : Nat
  is_syncing : Bool
  should_have_peers : Bool
deriving DecidableEq

/-- Modelled from `jsonrpsee::core::Error`, the sub-kind payload of the
RPC-transport leaf. The repository's classifier only distinguishes
`Transport` and `RestartNeeded` from every other sub-kind, so a
representative set of the remaining sub-kinds suffices; each carries its
rendered message. -/
inductive RpcError where
  | Call (msg : String)
  | Transport (msg : String)
  | RestartNeeded (msg : String)
  | ParseError (msg : String)
  | InvalidRequestId
  | RequestTimeout
  | Custom (msg : String)
deriving DecidableEq

/-- Modelled from `sp_core::storage::StorageKey`: a byte vector. -/
abbrev StorageKey := List Nat

/-- Modelled from `sp_core::Bytes`: a byte vector (encoded call arguments). -/
abbrev Bytes := List Nat

/-- The `Error` enum of `error.rs` (lines 35-195). Leaf variants carry the
rendered message (or structured payload) of the underlying failure; wrapping
variants carry context fields plus the nested cause (the Rust `Box<Error>`
indirection is erased). -/
inductive Error where
  | Io (msg : String)
  | RpcError (e : RpcError)
  | ResponseParseFailed (msg : String)
  | ChannelError (msg : String)
  | MissingRequiredParachainHead (para : Nat) (head : Nat)
  | FinalityProofNotFound (number : Nat)
  | ClientNotSynced (health : Health)
  | FailedToGetSystemHealth (chain : String) (error : Error)
  | FailedToReadBestFinalizedHeaderHash (chain : String) (error : Error)
  | FailedToReadBestHeader (chain : String) (error : Error)
  | FailedToReadHeaderHashByNumber (chain : String) (number : String) (error : Error)
  | FailedToReadHeaderByHash (chain : String) (hash : String) (error : Error)
  | FailedToReadBlockByHash (chain : String) (hash : String) (error : Error)
  | FailedToReadStorageValue (chain : String) (hash : String) (key : StorageKey) (error : Error)
  | FailedToReadRuntimeVersion (chain : String) (error : Error)
  | FailedToGetPendingExtrinsics (chain : String) (error : Error)
  | FailedToSubmitTransaction (chain : String) (error : Error)
  | FailedStateCall (chain : String) (hash : String) (method : String) (arguments : Bytes) (error : Error)
  | FailedToProveStorage (chain : String) (hash : String) (storage_keys : List StorageKey) (error : Error)
  | FailedToSubscribeJustifications (chain : String) (error : Error)
  | BridgePalletIsHalted
  | BridgePalletIsNotInitialized
  | TransactionInvalid (detail : String)
  | Custom (msg : String)
deriving DecidableEq

/-- A chain identity, as consumed by the context constructors: only its
fixed name string (`C::NAME`) is read. -/
structure Chain where
  NAME : String

/-- The `boxed` helper (line 217): boxing is the identity on value content. -/
def Error.boxed (e : Error) : Error := e

/-- The `nested` operation (lines 222-239): the immediately boxed cause of a
wrapping variant, nothing for a leaf. -/
def Error.nested : Error → Option Error
  | .FailedToReadBestFinalizedHeaderHash _ error => some error
  | .FailedToReadBestHeader _ error => some error
  | .FailedToReadHeaderHashByNumber _ _ error => some error
  | .FailedToReadHeaderByHash _ _ error => some error
  | .FailedToReadBlockByHash _ _ error => some error
  | .FailedToReadStorageValue _ _ _ error => some error
  | .FailedToReadRuntimeVersion _ error => some error
  | .FailedToGetPendingExtrinsics _ error => some error
  | .FailedToSubmitTransaction _ error => some error
  | .FailedStateCall _ _ _ _ error => some error
  | .FailedToProveStorage _ _ _ error => some error
  | .FailedToGetSystemHealth _ error => some error
  | .FailedToSubscribeJustifications _ error => some error
  | _ => none

/-- Constructor `failed_to_read_header_hash_by_number` (lines 242-251).
The block number is stringified with its default decimal representation
(Rust `format!` with `Display` of the number). -/
def Error.failed_to_read_header_hash_by_number (C : Chain) (number : Nat) (e : Error) : Error :=
  Error.FailedToReadHeaderHashByNumber C.NAME (toString number) e.boxed

/-- Constructor `failed_to_read_header_by_hash` (lines 254-260). The hash is
stringified with its canonical display form, modelled here as the string
itself. -/
def Error.failed_to_read_header_by_hash (C : Chain) (hash : String) (e : Error) : Error :=
  Error.FailedToReadHeaderByHash C.NAME hash e.boxed

/-- Constructor `failed_to_read_block_by_hash` (lines 263-269). Its body, as
written in the source, builds the `FailedToReadHeaderByHash` variant even
though its doc comment says it constructs `FailedToReadBlockByHash`. -/
def Error.failed_to_read_block_by_hash (C : Chain) (hash : String) (e : Error) : Error :=
  Error.FailedToReadHeaderByHash C.NAME hash e.boxed

/-- Constructor `failed_to_read_best_finalized_header_hash` (lines 272-274). -/
def Error.failed_to_read_best_finalized_header_hash (C : Chain) (e : Error) : Error :=
  Error.FailedToReadBestFinalizedHeaderHash C.NAME e.boxed

/-- Constructor `failed_to_read_best_header` (lines 277-279). -/
def Error.failed_to_read_best_header (C : Chain) (e : Error) : Error :=
  Error.FailedToReadBestHeader C.NAME e.boxed

/-- Constructor `failed_to_read_runtime_version` (lines 282-284). -/
def Error.failed_to_read_runtime_version (C : Chain) (e : Error) : Error :=
  Error.FailedToReadRuntimeVersion C.NAME e.boxed

/-- Constructor `failed_to_read_storage_value` (lines 287-298). -/
def Error.failed_to_read_storage_value (C : Chain) (at_ : String) (key : StorageKey) (e : Error) : Error :=
  Error.FailedToReadStorageValue C.NAME at_ key e.boxed

/-- Constructor `failed_to_get_pending_extrinsics` (lines 301-303). -/
def Error.failed_to_get_pending_extrinsics (C : Chain) (e : Error) : Error :=
  Error.FailedToGetPendingExtrinsics C.NAME e.boxed

/-- Constructor `failed_to_submit_transaction` (lines 306-308). -/
def Error.failed_to_submit_transaction (C : Chain) (e : Error) : Error :=
  Error.FailedToSubmitTransaction C.NAME e.boxed

/-- Constructor `failed_state_call` (lines 311-324). -/
def Error.failed_state_call (C : Chain) (at_ : String) (method : String) (arguments : Bytes) (e : Error) : Error :=
  Error.FailedStateCall C.NAME at_ method arguments e.boxed

/-- Constructor `failed_to_prove_storage` (lines 327-338). -/
def Error.failed_to_prove_storage (C : Chain) (at_ : String) (storage_keys : List StorageKey) (e : Error) : Error :=
  Error.FailedToProveStorage C.NAME at_ storage_keys e.boxed

/-- Constructor `failed_to_get_system_health` (lines 341-343). -/
def Error.failed_to_get_system_health (C : Chain) (e : Error) : Error :=
  Error.FailedToGetSystemHealth C.NAME e.boxed

/-- Constructor `failed_to_subscribe_justification` (lines 346-348). -/
def Error.failed_to_subscribe_justification (C : Chain) (e : Error) : Error :=
  Error.FailedToSubscribeJustifications C.NAME e.boxed

/-- The `MaybeConnectionError` classifier (lines 351-361). The source's final
arm is `_ => self.nested().map(|e| e.is_connection_error()).unwrap_or(false)`;
for structural termination that arm is expanded here into one equation per
wrapping variant (delegating to the nested cause) and `false` on the
remaining leaves. `classifyFuel` below restates the source's nested-based
shape literally, and the two are proved to agree. -/
def Error.is_connection_error : Error → Bool
  | .ChannelError _ => true
  | .RpcError e =>
    match e with
    | .Transport _ => true
    | .RestartNeeded _ => true
    | _ => false
  | .ClientNotSynced _ => true
  | .FailedToReadBestFinalizedHeaderHash _ error => error.is_connection_error
  | .FailedToReadBestHeader _ error => error.is_connection_error
  | .FailedToReadHeaderHashByNumber _ _ error => error.is_connection_error
  | .FailedToReadHeaderByHash _ _ error => error.is_connection_error
  | .FailedToReadBlockByHash _ _ error => error.is_connection_error
  | .FailedToReadStorageValue _ _ _ error => error.is_connection_error
  | .FailedToReadRuntimeVersion _ error => error.is_connection_error
  | .FailedToGetPendingExtrinsics _ error => error.is_connection_error
  | .FailedToSubmitTransaction _ error => error.is_connection_error
  | .FailedStateCall _ _ _ _ error => error.is_connection_error
  | .FailedToProveStorage _ _ _ error => error.is_connection_error
  | .FailedToGetSystemHealth _ error => error.is_connection_error
  | .FailedToSubscribeJustifications _ error => error.is_connection_error
  | _ => false

/-- Depth of the cause chain: number of wrapping layers above the leaf. -/
def Error.depth : Error → Nat
  | .FailedToReadBestFinalizedHeaderHash _ error => error.depth + 1
  | .FailedToReadBestHeader _ error => error.depth + 1
  | .FailedToReadHeaderHashByNumber _ _ error => error.depth + 1
  | .FailedToReadHeaderByHash _ _ error => error.depth + 1
  | .FailedToReadBlockByHash _ _ error => error.depth + 1
  | .FailedToReadStorageValue _ _ _ error => error.depth + 1
  | .FailedToReadRuntimeVersion _ error => error.depth + 1
  | .FailedToGetPendingExtrinsics _ error => error.depth + 1
  | .FailedToSubmitTransaction _ error => error.depth + 1
  | .FailedStateCall _ _ _ _ error => error.depth + 1
  | .FailedToProveStorage _ _ _ error => error.depth + 1
  | .FailedToGetSystemHealth _ error => error.depth + 1
  | .FailedToSubscribeJustifications _ error => error.depth + 1
  | _ => 0

/-- Fuel-bounded transcription of the classifier exactly as the source
writes it: three special arms, then delegation through `nested`. Fuel
exhaustion returns `false`. -/
def classifyFuel : Nat → Error → Bool
  | 0, _ => false
  | Nat.succ n, e =>
    match e with
    | .ChannelError _ => true
    | .RpcError r =>
      match r with
      | .Transport _ => true
      | .RestartNeeded _ => true
      | _ => false
    | .ClientNotSynced _ => true
    | _ => (e.nested.map (classifyFuel n)).getD false

/-- Iterating `nested` for `n` steps, stopping when it returns nothing. -/
def Error.iterNested : Nat → Error → Error
  | 0, e => e
  | Nat.succ n, e =>
    match e.nested with
    | some c => Error.iterNested n c
    | none => e

/-- Rust `Debug` of a string: the string in quotes (escape sequences elided;
no input used below contains characters needing escapes). -/
def debugStr (s : String) : String := "\"" ++ s ++ "\""

/-- Rust `Debug` of `sp_core::storage::StorageKey` (derived):
`StorageKey([..bytes..])`; `toString` of a `List Nat` renders the bytes
exactly as Rust's `Vec<u8>` debug does. -/
def StorageKey.debugFmt (k : StorageKey) : String :=
  "StorageKey(" ++ toString k ++ ")"

/-- Rendering of `sp_core::Bytes` (encoded arguments) as hex. -/
def bytesDebugFmt (bs : Bytes) : String :=
  "0x" ++ String.join (bs.map (fun b =>
    (["0", "1", "2", "3", "4", "5", "6", "7", "8", "9", "a", "b", "c", "d", "e", "f"].getD (b / 16 % 16) ("?")) ++
    (["0", "1", "2", "3", "4", "5", "6", "7", "8", "9", "a", "b", "c", "d", "e", "f"].getD (b % 16) ("?"))))

/-- Modelled from `sc_rpc_api`'s `Display` for `Health`. -/
def Health.display (h : Health) : String :=
  toString h.peers ++ " peers (" ++ (if h.is_syncing then ("syncing") else ("idle")) ++ ")"

/-- Derived `Debug` of `Health`. -/
def Health.debugFmt (h : Health) : String :=
  "Health \x7b peers: " ++ toString h.peers ++ ", is_syncing: " ++ toString h.is_syncing ++
    ", should_have_peers: " ++ toString h.should_have_peers ++ " \x7d"

/-- Display of a `jsonrpsee` error: each variant carries its fully rendered
message, so display is that message (fixed text for the payload-free
sub-kinds). -/
def RpcError.display : RpcError → String
  | .Call msg => msg
  | .Transport msg => msg
  | .RestartNeeded msg => msg
  | .ParseError msg => msg
  | .InvalidRequestId => "Invalid request ID"
  | .RequestTimeout => "Request timeout"
  | .Custom msg => msg

/-- Debug of a `jsonrpsee` error: variant name around the carried message
(the external payload's own debug shape is abstracted to its message). -/
def RpcError.debugFmt : RpcError → String
  | .Call msg => "Call(" ++ msg ++ ")"
  | .Transport msg => "Transport(" ++ msg ++ ")"
  | .RestartNeeded msg => "RestartNeeded(" ++ debugStr msg ++ ")"
  | .ParseError msg => "ParseError(" ++ msg ++ ")"
  | .InvalidRequestId => "InvalidRequestId"
  | .RequestTimeout => "RequestTimeout"
  | .Custom msg => "Custom(" ++ debugStr msg ++ ")"

/-- Derived `Debug` of `Error` (from `#[derive(Debug)]` on line 34): variant
name, tuple payloads in parentheses, struct payloads as `name: value` pairs
in braces. External leaf payloads (`std::io::Error`, `codec::Error`,
`TransactionValidityError`) are rendered through their carried message; the
`std::io::Error` case follows its real debug shape for message-built
errors. -/
def Error.debugFmt : Error → String
  | .Io msg => "Io(Custom \x7b kind: Other, error: " ++ debugStr msg ++ " \x7d)"
  | .RpcError e => "RpcError(" ++ e.debugFmt ++ ")"
  | .ResponseParseFailed msg => "ResponseParseFailed(" ++ debugStr msg ++ ")"
  | .ChannelError msg => "ChannelError(" ++ debugStr msg ++ ")"
  | .MissingRequiredParachainHead para head =>
    "MissingRequiredParachainHead(Id(" ++ toString para ++ "), " ++ toString head ++ ")"
  | .FinalityProofNotFound number => "FinalityProofNotFound(" ++ toString number ++ ")"
  | .ClientNotSynced h => "ClientNotSynced(" ++ h.debugFmt ++ ")"
  | .FailedToGetSystemHealth chain error =>
    "FailedToGetSystemHealth \x7b chain: " ++ debugStr chain ++ ", error: " ++ error.debugFmt ++ " \x7d"
  | .FailedToReadBestFinalizedHeaderHash chain error =>
    "FailedToReadBestFinalizedHeaderHash \x7b chain: " ++ debugStr chain ++ ", error: " ++ error.debugFmt ++ " \x7d"
  | .FailedToReadBestHeader chain error =>
    "FailedToReadBestHeader \x7b chain: " ++ debugStr chain ++ ", error: " ++ error.debugFmt ++ " \x7d"
  | .FailedToReadHeaderHashByNumber chain number error =>
    "FailedToReadHeaderHashByNumber \x7b chain: " ++ debugStr chain ++ ", number: " ++ debugStr number ++
      ", error: " ++ error.debugFmt ++ " \x7d"
  | .FailedToReadHeaderByHash chain hash error =>
    "FailedToReadHeaderByHash \x7b chain: " ++ debugStr chain ++ ", hash: " ++ debugStr hash ++
      ", error: " ++ error.debugFmt ++ " \x7d"
  | .FailedToReadBlockByHash chain hash error =>
    "FailedToReadBlockByHash \x7b chain: " ++ debugStr chain ++ ", hash: " ++ debugStr hash ++
      ", error: " ++ error.debugFmt ++ " \x7d"
  | .FailedToReadStorageValue chain hash key error =>
    "FailedToReadStorageValue \x7b chain: " ++ debugStr chain ++ ", hash: " ++ debugStr hash ++
      ", key: " ++ key.debugFmt ++ ", error: " ++ error.debugFmt ++ " \x7d"
  | .FailedToReadRuntimeVersion chain error =>
    "FailedToReadRuntimeVersion \x7b chain: " ++ debugStr chain ++ ", error: " ++ error.debugFmt ++ " \x7d"
  | .FailedToGetPendingExtrinsics chain error =>
    "FailedToGetPendingExtrinsics \x7b chain: " ++ debugStr chain ++ ", error: " ++ error.debugFmt ++ " \x7d"
  | .FailedToSubmitTransaction chain error =>
    "FailedToSubmitTransaction \x7b chain: " ++ debugStr chain ++ ", error: " ++ error.debugFmt ++ " \x7d"
  | .FailedStateCall chain hash method arguments error =>
    "FailedStateCall \x7b chain: " ++ debugStr chain ++ ", hash: " ++ debugStr hash ++
      ", method: " ++ debugStr method ++ ", arguments: " ++ bytesDebugFmt arguments ++
      ", error: " ++ error.debugFmt ++ " \x7d"
  | .FailedToProveStorage chain hash storage_keys error =>
    "FailedToProveStorage \x7b chain: " ++ debugStr chain ++ ", hash: " ++ debugStr hash ++
      ", storage_keys: [" ++ String.intercalate (", ") (storage_keys.map StorageKey.debugFmt) ++
      "], error: " ++ error.debugFmt ++ " \x7d"
  | .FailedToSubscribeJustifications chain error =>
    "FailedToSubscribeJustifications \x7b chain: " ++ debugStr chain ++ ", error: " ++ error.debugFmt ++ " \x7d"
  | .BridgePalletIsHalted => "BridgePalletIsHalted"
  | .BridgePalletIsNotInitialized => "BridgePalletIsNotInitialized"
  | .TransactionInvalid detail => "TransactionInvalid(" ++ detail ++ ")"
  | .Custom msg => "Custom(" ++ debugStr msg ++ ")"

/-- The `Display` of `Error`, transcribed from the `#[error("...")]` format
string of each variant (lines 35-195). Placeholders `{x}` use display of the
field, `{x:?}` its debug; literal text between placeholders is copied
verbatim. Note the `FailedToReadStorageValue` format string omits its `hash`
field, exactly as on line 114 of the source. -/
def Error.display : Error → String
  | .Io msg => "IO error: " ++ msg
  | .RpcError e => "RPC error: " ++ e.display
  | .ResponseParseFailed msg => "Response parse failed: " ++ msg
  | .ChannelError msg => "Internal communication channel error: " ++ debugStr msg ++ "."
  | .MissingRequiredParachainHead para head =>
    "Parachain Id(" ++ toString para ++ ") head " ++ toString head ++
      " is missing from the relay chain storage."
  | .FinalityProofNotFound number =>
    "Failed to find finality proof for header " ++ toString number ++ "."
  | .ClientNotSynced h => "Substrate client is not synced " ++ h.display ++ "."
  | .FailedToGetSystemHealth chain error =>
    "Failed to get system health of " ++ chain ++ " node: " ++ error.debugFmt ++ "."
  | .FailedToReadBestFinalizedHeaderHash chain error =>
    "Failed to read best finalized header hash of " ++ chain ++ ": " ++ error.debugFmt ++ "."
  | .FailedToReadBestHeader chain error =>
    "Failed to read best header of " ++ chain ++ ": " ++ error.debugFmt ++ "."
  | .FailedToReadHeaderHashByNumber chain number error =>
    "Failed to read header hash by number " ++ number ++ " of " ++ chain ++ ": " ++ error.debugFmt ++ "."
  | .FailedToReadHeaderByHash chain hash error =>
    "Failed to read header " ++ hash ++ " of " ++ chain ++ ": " ++ error.debugFmt ++ "."
  | .FailedToReadBlockByHash chain hash error =>
    "Failed to read block " ++ hash ++ " of " ++ chain ++ ": " ++ error.debugFmt ++ "."
  | .FailedToReadStorageValue chain _hash key error =>
    "Failed to read storage value " ++ key.debugFmt ++ " at " ++ chain ++ ": " ++ error.debugFmt ++ "."
  | .FailedToReadRuntimeVersion chain error =>
    "Failed to read runtime version of " ++ chain ++ ": " ++ error.debugFmt ++ "."
  | .FailedToGetPendingExtrinsics chain error =>
    "Failed to get pending extrinsics of " ++ chain ++ ": " ++ error.debugFmt ++ "."
  | .FailedToSubmitTransaction chain error =>
    "Failed to submit " ++ chain ++ " transaction: " ++ error.debugFmt ++ "."
  | .FailedStateCall chain hash method arguments error =>
    "Runtime call " ++ method ++ " with arguments " ++ bytesDebugFmt arguments ++ " of chain " ++
      chain ++ " at " ++ hash ++ " has failed: " ++ error.debugFmt ++ "."
  | .FailedToProveStorage chain hash storage_keys error =>
    "Failed to prove storage keys [" ++
      String.intercalate (", ") (storage_keys.map StorageKey.debugFmt) ++ "] of " ++ chain ++
      " at " ++ hash ++ ": " ++ error.debugFmt ++ "."
  | .FailedToSubscribeJustifications chain error =>
    "Failed to subscribe to " ++ chain ++ " justifications: " ++ error.debugFmt ++ "."
  | .BridgePalletIsHalted => "Bridge pallet is halted."
  | .BridgePalletIsNotInitialized => "Bridge pallet is not initialized."
  | .TransactionInvalid detail => "Substrate transaction is invalid: " ++ detail
  | .Custom msg => msg

/-- Modelled from `tokio::task::JoinError`: carries its rendered display
message. -/
structure JoinError where
  msg : String

/-- Modelled from `async_std::channel::TrySendError<T>` (a re-export of
`async_channel::TrySendError<T>`): `Full` or `Closed`, owning the rejected
payload. -/
inductive TrySendError (T : Type) where
  | Full (payload : T)
  | Closed (payload : T)

/-- Debug of `TrySendError<T>`: transcribed from `async_channel`'s manual
`Debug` impl, which holds for every `T` (no `Debug` bound) and therefore
elides the payload, printing `Full(..)` or `Closed(..)`. The repository's
`impl<T> From<TrySendError<T>> for Error` (line 203) likewise has no `Debug`
bound on `T`, so this payload-free impl is the one its `format!` uses. -/
def TrySendError.debugFmt {T : Type} : TrySendError T → String
  | .Full _ => "Full(..)"
  | .Closed _ => "Closed(..)"

/-- Modelled from `async_std::channel::RecvError`: a payload-free struct. -/
structure RecvError

/-- Derived debug of `RecvError`. -/
def RecvError.debugFmt (_ : RecvError) : String := "RecvError"

/-- The `From<tokio::task::JoinError>` conversion (lines 197-201). -/
def Error.fromJoinError (e : JoinError) : Error :=
  Error.ChannelError ("failed to wait tokio task: " ++ e.msg)

/-- The `From<async_std::channel::TrySendError<T>>` conversion
(lines 203-207): `format!` with the debug of the try-send error. -/
def Error.fromTrySendError {T : Type} (e : TrySendError T) : Error :=
  Error.ChannelError ("`try_send` has failed: " ++ e.debugFmt)

/-- The `From<async_std::channel::RecvError>` conversion (lines 209-213). -/
def Error.fromRecvError (e : RecvError) : Error :=
  Error.ChannelError ("`recv` has failed: " ++ e.debugFmt)

/-- Boolean test: the second character list is a prefix of the first. -/
def charsStartWith : List Char → List Char → Bool
  | _, [] => true
  | [], _ :: _ => false
  | c :: cs, p :: ps => c == p && charsStartWith cs ps

/-- Boolean test: the second character list occurs contiguously inside the
first. -/
def charsHasSub : List Char → List Char → Bool
  | [], pat => charsStartWith ([]) pat
  | c :: cs, pat => charsStartWith (c :: cs) pat || charsHasSub cs pat

/-- Substring containment on strings. -/
def containsText (s pat : String) : Bool := charsHasSub s.data pat.data

/-! Helper lemmas shared by the claim theorems. -/

/-- A list starts with itself, whatever follows. -/
theorem charsStartWith_append : ∀ (p s : List Char), charsStartWith (p ++ s) p = true := by
  intro p
  induction p with
  | nil => intro s; simp [charsStartWith]
  | cons c cs ih => intro s; simp [charsStartWith, ih]

/-- Starting with a pattern implies containing it. -/
theorem charsHasSub_of_start : ∀ (s pat : List Char), charsStartWith s pat = true → charsHasSub s pat = true := by
  intro s pat h
  cases s with
  | nil => simpa [charsHasSub] using h
  | cons c cs => simp [charsHasSub, h]

/-- A string contains any prefix of itself. -/
theorem containsText_left (a b : String) : containsText (a ++ b) a = true := by
  unfold containsText
  rw [String.data_append]
  exact charsHasSub_of_start _ _ (charsStartWith_append _ _)

/-- Taking the nested cause decreases the cause-chain depth by exactly one. -/
theorem nested_depth : ∀ (e c : Error), e.nested = some c → e.depth = c.depth + 1 := by
  intro e c h
  cases e <;> simp_all [Error.nested, Error.depth]

/-- With fuel exceeding the cause-chain depth, the fuel-bounded literal
transcription of the classifier agrees with `is_connection_error`. -/
theorem classifyFuel_correct : ∀ (n : Nat) (e : Error), e.depth < n → classifyFuel n e = e.is_connection_error := by
  intro n
  induction n with
  | zero => intro e h; exact absurd h (Nat.not_lt_zero _)
  | succ n ih =>
    intro e h
    cases e <;>
      simp_all [classifyFuel, Error.nested, Error.is_connection_error, Error.depth]

/-- Iterating `nested` for `depth` steps reaches a leaf. -/
theorem iterNested_exhausts : ∀ e : Error, (Error.iterNested e.depth e).nested = none := by
  intro e
  induction e <;> simp_all [Error.depth, Error.iterNested, Error.nested]

/-! Claim theorems. -/

/-- C1: on leaves, `is_connection_error` is true exactly for the
internal-channel leaf (any message), the RPC transport-failure leaf, the
RPC restart-needed leaf, and the node-not-synced leaf; it is false for the
I/O, decode, parachain-head-missing, finality-proof-not-found,
pallet-halted, pallet-uninitialized, invalid-transaction, and custom
leaves. -/
theorem C1_leaf_classification :
    ∀ (a b c d f g k : String) (h : Health) (p q r : Nat),
      (Error.ChannelError a).is_connection_error = true ∧
      (Error.RpcError (RpcError.Transport b)).is_connection_error = true ∧
      (Error.RpcError (RpcError.RestartNeeded c)).is_connection_error = true ∧
      (Error.ClientNotSynced h).is_connection_error = true ∧
      ( Error.Io d).is_connection_error = false ∧
      (Error.ResponseParseFailed f).is_connection_error = false ∧
      (Error.MissingRequiredParachainHead p q).is_connection_error = false ∧
      (Error.FinalityProofNotFound r).is_connection_error = false ∧
      (Error.BridgePalletIsHalted).is_connection_error = false ∧
      (Error.BridgePalletIsNotInitialized).is_connection_error = false ∧
      (Error.TransactionInvalid g).is_connection_error = false ∧
      (Error.Custom k).is_connection_error = false := by
  intros
  exact ⟨rfl, rfl, rfl, rfl, rfl, rfl, rfl, rfl, rfl, rfl, rfl, rfl⟩

/-- C2: every wrapping constructor's value classifies as a connection error
exactly when its cause does (Boolean equality of `is_connection_error`,
hence in particular monotone in the cause's classification). -/
theorem C2_wrap_classification :
    ∀ (C : Chain) (n : Nat) (a m : String) (key : StorageKey) (args : Bytes)
      (ks : List StorageKey) (e : Error),
      (Error.failed_to_read_header_hash_by_number C n e).is_connection_error = e.is_connection_error ∧
      (Error.failed_to_read_header_by_hash C a e).is_connection_error = e.is_connection_error ∧
      (Error.failed_to_read_block_by_hash C a e).is_connection_error = e.is_connection_error ∧
      (Error.failed_to_read_best_finalized_header_hash C e).is_connection_error = e.is_connection_error ∧
      (Error.failed_to_read_best_header C e).is_connection_error = e.is_connection_error ∧
      (Error.failed_to_read_runtime_version C e).is_connection_error = e.is_connection_error ∧
      (Error.failed_to_read_storage_value C a key e).is_connection_error = e.is_connection_error ∧
      (Error.failed_to_get_pending_extrinsics C e).is_connection_error = e.is_connection_error ∧
      (Error.failed_to_submit_transaction C e).is_connection_error = e.is_connection_error ∧
      (Error.failed_state_call C a m args e).is_connection_error = e.is_connection_error ∧
      (Error.failed_to_prove_storage C a ks e).is_connection_error = e.is_connection_error ∧
      (Error.failed_to_get_system_health C e).is_connection_error = e.is_connection_error ∧
      (Error.failed_to_subscribe_justification C e).is_connection_error = e.is_connection_error := by
  intros
  exact ⟨rfl, rfl, rfl, rfl, rfl, rfl, rfl, rfl, rfl, rfl, rfl, rfl, rfl⟩

/-- C3: `nested` returns the immediately boxed cause for every wrapping
variant (also when built through its constructor, whose cause is boxed
unchanged), and returns nothing for every leaf variant. -/
theorem C3_nested_navigation :
    ∀ (c a n m : String) (key : StorageKey) (args : Bytes) (ks : List StorageKey)
      (C : Chain) (h : Health) (er : RpcError) (p q v : Nat) (e : Error),
      (Error.FailedToReadBestFinalizedHeaderHash c e).nested = some e ∧
      (Error.FailedToReadBestHeader c e).nested = some e ∧
      (Error.FailedToReadHeaderHashByNumber c n e).nested = some e ∧
      (Error.FailedToReadHeaderByHash c a e).nested = some e ∧
      (Error.FailedToReadBlockByHash c a e).nested = some e ∧
      (Error.FailedToReadStorageValue c a key e).nested = some e ∧
      (Error.FailedToReadRuntimeVersion c e).nested = some e ∧
      (Error.FailedToGetPendingExtrinsics c e).nested = some e ∧
      (Error.FailedToSubmitTransaction c e).nested = some e ∧
      (Error.FailedStateCall c a m args e).nested = some e ∧
      (Error.FailedToProveStorage c a ks e).nested = some e ∧
      (Error.FailedToGetSystemHealth c e).nested = some e ∧
      (Error.FailedToSubscribeJustifications c e).nested = some e ∧
      (Error.failed_to_read_header_hash_by_number C p e).nested = some e ∧
      (Error.failed_to_read_header_by_hash C a e).nested = some e ∧
      (Error.failed_to_read_block_by_hash C a e).nested = some e ∧
      (Error.failed_to_read_best_finalized_header_hash C e).nested = some e ∧
      (Error.failed_to_read_best_header C e).nested = some e ∧
      (Error.failed_to_read_runtime_version C e).nested = some e ∧
      (Error.failed_to_read_storage_value C a key e).nested = some e ∧
      (Error.failed_to_get_pending_extrinsics C e).nested = some e ∧
      (Error.failed_to_submit_transaction C e).nested = some e ∧
      (Error.failed_state_call C a m args e).nested = some e ∧
      (Error.failed_to_prove_storage C a ks e).nested = some e ∧
      (Error.failed_to_get_system_health C e).nested = some e ∧
      (Error.failed_to_subscribe_justification C e).nested = some e ∧
      ( Error.Io a).nested = none ∧
      (Error.RpcError er).nested = none ∧
      (Error.ResponseParseFailed a).nested = none ∧
      (Error.ChannelError a).nested = none ∧
      (Error.MissingRequiredParachainHead p q).nested = none ∧
      (Error.FinalityProofNotFound v).nested = none ∧
      (Error.ClientNotSynced h).nested = none ∧
      (Error.BridgePalletIsHalted).nested = none ∧
      (Error.BridgePalletIsNotInitialized).nested = none ∧
      (Error.TransactionInvalid a).nested = none ∧
      (Error.Custom a).nested = none := by
  intros
  exact ⟨rfl, rfl, rfl, rfl, rfl, rfl, rfl, rfl, rfl, rfl, rfl, rfl, rfl, rfl, rfl, rfl, rfl,
    rfl, rfl, rfl, rfl, rfl, rfl, rfl, rfl, rfl, rfl, rfl, rfl, rfl, rfl, rfl, rfl, rfl, rfl,
    rfl, rfl⟩

/-- C4: the read-block-by-hash constructor and the read-header-by-hash
constructor produce identical values, in particular the same (header-by-
hash) wrapping kind, for every chain, hash and cause. -/
theorem C4_merged_constructors :
    ∀ (C : Chain) (a : String) (e : Error),
      Error.failed_to_read_block_by_hash C a e = Error.failed_to_read_header_by_hash C a e := by
  intros
  rfl

/-- C5 counterexample: the claimed scenario fails on the code. For the
read-storage-value wrap with chain Kusama, block 0xabc, key 0x01 and an
I/O-leaf cause saying broken pipe, the formatted message does not contain
0xabc, because the variant's format string (source line 114) omits its
`hash` field. -/
theorem C5_counterexample :
    ¬ (containsText (Error.display (Error.FailedToReadStorageValue ("Kusama") ("0xabc") ([1]) ( Error.Io ("broken pipe")))) ("Kusama") = true ∧
       containsText (Error.display (Error.FailedToReadStorageValue ("Kusama") ("0xabc") ([1]) ( Error.Io ("broken pipe")))) ("0xabc") = true ∧
       containsText (Error.display (Error.FailedToReadStorageValue ("Kusama") ("0xabc") ([1]) ( Error.Io ("broken pipe")))) ("broken pipe") = true) := by
  decide

/-- C5 (amended): the scenario value, built through the storage-value
constructor, has the I/O leaf as its nested cause, classifies as a
non-connection error, and formats to a message containing Kusama and
broken pipe but not 0xabc (the read-storage-value format string omits the
block-hash field). -/
theorem C5_scenario_format :
    Error.failed_to_read_storage_value (Chain.mk ("Kusama")) ("0xabc") ([1]) ( Error.Io ("broken pipe")) =
      Error.FailedToReadStorageValue ("Kusama") ("0xabc") ([1]) ( Error.Io ("broken pipe")) ∧
    (Error.FailedToReadStorageValue ("Kusama") ("0xabc") ([1]) ( Error.Io ("broken pipe"))).nested =
      some ( Error.Io ("broken pipe")) ∧
    (Error.FailedToReadStorageValue ("Kusama") ("0xabc") ([1]) ( Error.Io ("broken pipe"))).is_connection_error = false ∧
    containsText (Error.display (Error.FailedToReadStorageValue ("Kusama") ("0xabc") ([1]) ( Error.Io ("broken pipe")))) ("Kusama") = true ∧
    containsText (Error.display (Error.FailedToReadStorageValue ("Kusama") ("0xabc") ([1]) ( Error.Io ("broken pipe")))) ("broken pipe") = true ∧
    containsText (Error.display (Error.FailedToReadStorageValue ("Kusama") ("0xabc") ([1]) ( Error.Io ("broken pipe")))) ("0xabc") = false := by
  exact ⟨rfl, rfl, rfl, by decide, by decide, by decide⟩

/-- C6: evaluating the read-block-by-hash constructor at a concrete input
shows it builds the `FailedToReadHeaderByHash` variant and not the
`FailedToReadBlockByHash` variant its doc comment promises: the code
contradicts its own documentation. -/
theorem C6_block_constructor_builds_header_kind :
    Error.failed_to_read_block_by_hash (Chain.mk ("Kusama")) ("0xabc") (Error.Custom ("boom")) =
      Error.FailedToReadHeaderByHash ("Kusama") ("0xabc") (Error.Custom ("boom")) ∧
    Error.failed_to_read_block_by_hash (Chain.mk ("Kusama")) ("0xabc") (Error.Custom ("boom")) ≠
      Error.FailedToReadBlockByHash ("Kusama") ("0xabc") (Error.Custom ("boom")) := by
  exact ⟨rfl, by decide⟩

/-- C7 counterexample: the try-send conversion's message does not include
the rejected payload's debug representation. The `From` impl (source line
203) is generic over the payload type with no `Debug` bound, so the debug
of the try-send error elides the payload: converting a `Full` rejection of
the payload `42` yields a message without the substring 42. -/
theorem C7_counterexample :
    Error.fromTrySendError (TrySendError.Full (42 : Nat)) =
      Error.ChannelError ("`try_send` has failed: Full(..)") ∧
    containsText ("`try_send` has failed: Full(..)") ("42") = false := by
  exact ⟨by decide, by decide⟩

/-- C7 (amended): each local-channel adapter conversion is total and yields
an internal-channel leaf: the task-join conversion's message notes the
task-wait failure, the try-send conversion's message notes the try-send
failure and carries the try-send error's own debug form (which elides the
rejected payload), the receive conversion's message notes the recv failure,
and the receive conversion's value classifies as a connection error. -/
theorem C7_channel_conversions :
    ∀ (g : JoinError) (T : Type) (t : TrySendError T) (r : RecvError),
      (∃ m, Error.fromJoinError g = Error.ChannelError m ∧
        containsText m ("failed to wait tokio task: ") = true) ∧
      (∃ m, Error.fromTrySendError t = Error.ChannelError m ∧
        containsText m ("`try_send` has failed: ") = true ∧
        m = "`try_send` has failed: " ++ t.debugFmt) ∧
      (∃ m, Error.fromRecvError r = Error.ChannelError m ∧
        containsText m ("`recv` has failed: ") = true) ∧
      (Error.fromRecvError r).is_connection_error = true := by
  intro g T t r
  refine ⟨⟨_, rfl, containsText_left _ _⟩, ⟨_, rfl, containsText_left _ _, rfl⟩,
    ⟨_, rfl, containsText_left _ _⟩, rfl⟩

/-- C8: the classifier is total and its recursion is bounded by the
cause-chain depth: the fuel-bounded literal transcription of the source's
classifier already agrees with `is_connection_error` at fuel depth+1; and
iterating `nested` for depth steps reaches a value with no nested cause,
so the navigation loop terminates after at most the construction depth. -/
theorem C8_totality_termination :
    (∀ e : Error, classifyFuel (e.depth + 1) e = e.is_connection_error) ∧
    (∀ e : Error, (Error.iterNested e.depth e).nested = none) :=
  ⟨fun e => classifyFuel_correct (e.depth + 1) e (Nat.lt_succ_self _), iterNested_exhausts⟩

/-- C9: an RPC-transport leaf classifies as a connection error exactly when
its carried sub-kind is a transport failure or a restart-needed failure;
every other sub-kind makes it classify false. -/
theorem C9_rpc_subkind :
    ∀ r : RpcError,
      ((Error.RpcError r).is_connection_error = true) ↔
        ((∃ m, r = RpcError.Transport m) ∨ (∃ m, r = RpcError.RestartNeeded m)) := by
  intro r
  cases r <;> simp [Error.is_connection_error]

/-- C10: the directly constructed read-block-by-hash wrapping kind is fully
supported by the taxonomy operations: `nested` returns its boxed cause and
`is_connection_error` equals the cause's classification. -/
theorem C10_block_by_hash_supported :
    ∀ (c a : String) (e : Error),
      (Error.FailedToReadBlockByHash c a e).nested = some e ∧
      (Error.FailedToReadBlockByHash c a e).is_connection_error = e.is_connection_error := by
  intros
  exact ⟨rfl, rfl⟩

end ClientSubstrate
